import Mathlib

/-!
Shallow embedding of the batch image-filtering pipeline in `GUI.py`:
the `ImageProcessor` base class, the `GausianBlur` subclass, the
`read_image_from_directory` batch loop and the `apply_gaussian_blur`
entry point.  File-system effects (directory listing, `cv2.imread`,
`cv2.imwrite`) are modelled by an explicit `FileSystem` value and an
explicit effect log (`BatchState`); Python exceptions are modelled by
`Except PyErr`.
-/

/-- Pixel buffer: width, height, channel count and the sample values
(indexed by channel, row, column; values as rationals). -/
structure Image where
  width : Nat
  height : Nat
  channels : Nat
  pix : Nat → Nat → Nat → Rat

/-- Python exception values that the program can raise: `ValueError`,
OpenCV's `cv2.error`, and `OSError` (raised by `os.listdir`). -/
inductive PyErr where
  | valueError (msg : String)
  | cvError (msg : String)
  | osError (msg : String)
deriving DecidableEq

/-- Message carried by an exception (what `str(e)` shows). -/
def PyErr.msg : PyErr → String
  | .valueError m => m
  | .cvError m => m
  | .osError m => m

/-- Environment for the file-system effects: `listing folder` is what
`os.listdir(folder)` returns (`none` means the directory is missing or
unreadable, so `listdir` raises `OSError`); `decode path` is what
`cv2.imread(path)` returns (`none` for a file whose bytes cannot be
interpreted as an image, and for a directory entry that is not a regular
file); `writable path` says whether `cv2.imwrite` can write to `path`. -/
structure FileSystem where
  listing : String → Option (List String)
  decode : String → Option Image
  writable : String → Bool

/-- Model of `os.path.join(folder, name)` for a folder without trailing
separator and a relative `name`, the only case the program exercises
(names come from `os.listdir`). -/
def pathJoin (folder name : String) : String :=
  folder ++ "/" ++ name

/-- ASCII lowercasing of one character, as Python `str.lower` does on
ASCII text. -/
def lowerChar (c : Char) : Char :=
  if 'A' ≤ c ∧ c ≤ 'Z' then Char.ofNat (c.toNat + 32) else c

/-- ASCII model of Python `str.lower()`. -/
def lowerStr (s : String) : String :=
  ⟨s.data.map lowerChar⟩

/-- Model of Python `str.endswith(t)`. -/
def strEndsWith (s t : String) : Bool :=
  t.data.isSuffixOf s.data

/-- Whitespace stripped by Python `int()`. -/
def isSpaceChar (c : Char) : Bool :=
  c == ' ' || c == '\t' || c == '\n' || c == '\r'

/-- Strip leading and trailing whitespace from a character list. -/
def stripChars (l : List Char) : List Char :=
  ((l.dropWhile isSpaceChar).reverse.dropWhile isSpaceChar).reverse

/-- Decimal value of a digit string. -/
def digitsVal (l : List Char) : Nat :=
  l.foldl (fun acc c => acc * 10 + (c.toNat - 48)) 0

/-- Model of Python `int(s)` on ASCII input: strip whitespace, accept an
optional sign followed by at least one digit, else raise `ValueError`. -/
def pyInt (s : String) : Except PyErr Int :=
  let t := stripChars s.data
  let signed : Int × List Char :=
    match t with
    | '-' :: ds => (-1, ds)
    | '+' :: ds => (1, ds)
    | ds => (1, ds)
  if !signed.2.isEmpty && signed.2.all Char.isDigit then
    .ok (signed.1 * (digitsVal signed.2 : Int))
  else
    .error (.valueError ("invalid literal for int() with base 10: " ++ s))

/-- Base class `ImageProcessor`: holds the decoded image. -/
structure ImageProcessor where
  image : Image

/-- Constructor `ImageProcessor.__init__`: `self.image = cv2.imread(filename)`;
if the result is `None` it raises
`ValueError(f'Error: Image {filename} not found!')`, so a constructed
object always holds a successfully decoded image. -/
def ImageProcessor.init (fs : FileSystem) (filename : String) :
    Except PyErr ImageProcessor :=
  match fs.decode filename with
  | none => .error (.valueError ("Error: Image " ++ filename ++ " not found!"))
  | some img => .ok { image := img }

/-- Base-class `ImageProcessor.process`: unconditionally raises
`ValueError('Subclasses should implement this!')`. -/
def ImageProcessor.process (_p : ImageProcessor) : Except PyErr ImageProcessor :=
  .error (.valueError "Subclasses should implement this!")

/-- Modelled from the spec: `cv2.imwrite(filename, image)` is the external
codec's `encode(Image, path)` collaborator, which is not part of this
repository; per the spec's error taxonomy an encode failure (unwritable
path) raises and is recorded per file.  On success it writes `image` at
`filename`. -/
def cv2imwrite (fs : FileSystem) (filename : String) (img : Image) :
    Except PyErr (String × Image) :=
  if fs.writable filename then .ok (filename, img)
  else .error (.cvError ("could not write " ++ filename))

/-- Method `ImageProcessor.save_image`: `cv2.imwrite(filename, self.image)`. -/
def ImageProcessor.save_image (fs : FileSystem) (p : ImageProcessor)
    (filename : String) : Except PyErr (String × Image) :=
  cv2imwrite fs filename p.image

/-- Binomial weight `C(k-1, i) / 2^(k-1)`, the discrete Gaussian kernel
coefficient used by the blur model (it matches OpenCV's fixed small-kernel
coefficients for sizes 1, 3 and 5). -/
def gaussWeight (k i : Nat) : Rat :=
  (Nat.choose (k - 1) i : Rat) / ((2 : Rat) ^ (k - 1))

/-- Reflect-101 border handling: an out-of-range coordinate is reflected
about the edge pixel (single fold, then clamped into range). -/
def reflect101 (n : Nat) (p : Int) : Nat :=
  if n ≤ 1 then 0
  else
    let q : Int := if p < 0 then -p else if (n : Int) ≤ p then 2 * ((n : Int) - 1) - p else p
    q.toNat % n

/-- Weighted sum of `g` over kernel offsets `-(k-1)/2 .. (k-1)/2`. -/
def kernelSum (k : Nat) (g : Int → Rat) : Rat :=
  ((List.range k).map fun i =>
    gaussWeight k i * g ((i : Int) - (((k - 1) / 2 : Nat) : Int))).sum

/-- Separable Gaussian convolution of the buffer with a `k × k` kernel and
reflect-101 borders; the output buffer has the same width, height and
channel count as the input. -/
def gaussianBlurImage (img : Image) (k : Nat) : Image where
  width := img.width
  height := img.height
  channels := img.channels
  pix := fun c y x =>
    kernelSum k fun dy =>
      kernelSum k fun dx =>
        img.pix c (reflect101 img.height ((y : Int) + dy))
          (reflect101 img.width ((x : Int) + dx))

/-- Modelled from the spec: `cv2.GaussianBlur(image, (k, k), 0)` is the
external filter routine, not part of this repository.  With sigma fixed
at 0, OpenCV requires the kernel size to be a positive odd integer and
raises `cv2.error` otherwise; on a valid size it returns the convolved
buffer of identical dimensions and channel count. -/
def cv2GaussianBlur (img : Image) (k : Int) : Except PyErr Image :=
  if 0 < k ∧ k % 2 = 1 then .ok (gaussianBlurImage img k.toNat)
  else .error (.cvError "ksize.width and ksize.height must be positive and odd")

/-- Subclass `GausianBlur`: the inherited image plus the kernel size. -/
structure GausianBlur where
  image : Image
  kernel : Int

/-- Constructor `GausianBlur.__init__`: `super().__init__(filename)` then
`self.kernel = kernel`. -/
def GausianBlur.init (fs : FileSystem) (filename : String) (kernel : Int) :
    Except PyErr GausianBlur :=
  match ImageProcessor.init fs filename with
  | .error e => .error e
  | .ok p => .ok { image := p.image, kernel := kernel }

/-- Overridden `GausianBlur.process`:
`self.image = cv2.GaussianBlur(self.image, (self.kernel, self.kernel), 0)`. -/
def GausianBlur.process (g : GausianBlur) : Except PyErr GausianBlur :=
  match cv2GaussianBlur g.image g.kernel with
  | .error e => .error e
  | .ok img => .ok { g with image := img }

/-- A filter class passed polymorphically to `read_image_from_directory`:
its constructor (from a path), its `process` method, and its `image`
attribute.  Every filter class in the program derives from
`ImageProcessor`, whose constructor reads the file at the given path as
its first action. -/
structure FilterClass (α : Type) where
  init : FileSystem → String → Except PyErr α
  process : α → Except PyErr α
  image : α → Image

/-- The base class itself viewed as a filter class. -/
def ImageProcessorClass : FilterClass ImageProcessor where
  init := ImageProcessor.init
  process := ImageProcessor.process
  image p := p.image

/-- `GausianBlur` with the extra constructor argument `k` already
supplied (the program calls `filter_class(file_path, *filter_args)` with
`filter_args = (kernel,)`). -/
def GausianBlurClass (k : Int) : FilterClass GausianBlur where
  init fs path := GausianBlur.init fs path k
  process := GausianBlur.process
  image g := g.image

/-- Extension test from the source:
`filename.lower().endswith(('.png', '.jpg', '.jpeg', '.bmp'))`. -/
def imageExtensions : List String :=
  [".png", ".jpg", ".jpeg", ".bmp"]

/-- Eligibility of a directory entry for processing. -/
def eligible (filename : String) : Bool :=
  imageExtensions.any fun ext => strEndsWith (lowerStr filename) ext

/-- Claim-side restatement of eligibility: the entry name's extension,
compared case-insensitively, is one of png, jpg, jpeg, bmp. -/
def specEligible (filename : String) : Bool :=
  ["png", "jpg", "jpeg", "bmp"].any fun e => strEndsWith (lowerStr filename) ("." ++ e)

/-- Failure message printed by the batch loop:
`f"Failed to process {filename}: {e}"`. -/
def failMsg (filename reason : String) : String :=
  "Failed to process " ++ filename ++ ": " ++ reason

/-- Observable effects of one call of the batch runner: whether
`read_image_from_directory` was entered at all, the paths passed to
`cv2.imread` in order, the files written by `cv2.imwrite` in order, and
the failure messages printed in order. -/
structure BatchState where
  invoked : Bool
  reads : List String
  writes : List (String × Image)
  printed : List String

/-- State of a call that never happened. -/
def idleState : BatchState :=
  ⟨false, [], [], []⟩

/-- Body of the `try` block for one eligible entry: construct the
processor from `os.path.join(folder, name)` (decode), call `process`,
derive the output path `processed_<name>` in the same folder, and encode
there; the first raised exception is returned as `.error` with the
printed message. -/
def fileOutcome {α : Type} (fs : FileSystem) (C : FilterClass α)
    (folder name : String) : Except String (String × Image) :=
  match C.init fs (pathJoin folder name) with
  | .error e => .error (failMsg name e.msg)
  | .ok p =>
    match C.process p with
    | .error e => .error (failMsg name e.msg)
    | .ok p' =>
      match cv2imwrite fs (pathJoin folder ("processed_" ++ name)) (C.image p') with
      | .error e => .error (failMsg name e.msg)
      | .ok w => .ok w

/-- The written file of an outcome, if it succeeded. -/
def outWrite {α : Type} (r : Except α (String × Image)) : Option (String × Image) :=
  match r with
  | .ok w => some w
  | .error _ => none

/-- The printed failure message of an outcome, if it failed. -/
def outFail (r : Except String (String × Image)) : Option String :=
  match r with
  | .ok _ => none
  | .error m => some m

/-- The `for filename in os.listdir(folder_path)` loop: skip ineligible
names; for an eligible name run the `try` body, catching any exception
and printing the failure message instead of propagating it. -/
def batchLoop {α : Type} (fs : FileSystem) (C : FilterClass α)
    (folder : String) : List String → BatchState
  | [] => ⟨true, [], [], []⟩
  | name :: rest =>
    let s := batchLoop fs C folder rest
    if eligible name then
      match fileOutcome fs C folder name with
      | .ok w => ⟨true, pathJoin folder name :: s.reads, w :: s.writes, s.printed⟩
      | .error m => ⟨true, pathJoin folder name :: s.reads, s.writes, m :: s.printed⟩
    else s

/-- `read_image_from_directory(folder_path, filter_class, *filter_args)`:
`os.listdir` raises `OSError` for a missing or unreadable directory
(nothing read or written); otherwise the loop runs over the listing and
the function falls off its end, returning Python's `None` (here `()`). -/
def read_image_from_directory {α : Type} (fs : FileSystem) (folder : String)
    (C : FilterClass α) : Except PyErr Unit × BatchState :=
  match fs.listing folder with
  | none => (.error (.osError ("No such directory: " ++ folder)), ⟨true, [], [], []⟩)
  | some names => (.ok (), batchLoop fs C folder names)

/-- `apply_gaussian_blur()`: evaluates `int(kernel.get())` first — a
non-integer string raises `ValueError` before `read_image_from_directory`
is invoked — then calls the batch runner with the `GausianBlur` class. -/
def apply_gaussian_blur (fs : FileSystem) (folder kernelStr : String) :
    Except PyErr Unit × BatchState :=
  match pyInt kernelStr with
  | .error e => (.error e, idleState)
  | .ok k => read_image_from_directory fs folder (GausianBlurClass k)

/-- Reads performed by the loop on a listing: one decode per eligible
entry, in discovery order. -/
def batchReads (folder : String) (names : List String) : List String :=
  (names.filter eligible).map (pathJoin folder)

/-- Files written by the loop on a listing, in discovery order. -/
def batchWrites {α : Type} (fs : FileSystem) (C : FilterClass α)
    (folder : String) (names : List String) : List (String × Image) :=
  (names.filter eligible).filterMap fun n => outWrite (fileOutcome fs C folder n)

/-- Failure messages printed by the loop on a listing, in discovery
order. -/
def batchPrinted {α : Type} (fs : FileSystem) (C : FilterClass α)
    (folder : String) (names : List String) : List String :=
  (names.filter eligible).filterMap fun n => outFail (fileOutcome fs C folder n)

theorem batchLoop_invoked {α : Type} (fs : FileSystem) (C : FilterClass α)
    (folder : String) (names : List String) :
    (batchLoop fs C folder names).invoked = true := by
  induction names with
  | nil => rfl
  | cons n rest ih =>
    simp only [batchLoop]
    by_cases h : eligible n
    · simp only [h, if_true]
      cases fileOutcome fs C folder n <;> rfl
    · simpa [h] using ih

theorem batchLoop_reads {α : Type} (fs : FileSystem) (C : FilterClass α)
    (folder : String) (names : List String) :
    (batchLoop fs C folder names).reads = batchReads folder names := by
  induction names with
  | nil => rfl
  | cons n rest ih =>
    simp only [batchLoop, batchReads, List.filter]
    by_cases h : eligible n
    · simp only [h, if_true]
      cases hout : fileOutcome fs C folder n <;>
        simp [ih, batchReads, List.map]
    · simp only [h, if_false, Bool.false_eq_true]
      simpa [batchReads, h] using ih

theorem batchLoop_writes {α : Type} (fs : FileSystem) (C : FilterClass α)
    (folder : String) (names : List String) :
    (batchLoop fs C folder names).writes = batchWrites fs C folder names := by
  induction names with
  | nil => rfl
  | cons n rest ih =>
    simp only [batchLoop, batchWrites, List.filter]
    by_cases h : eligible n
    · simp only [h, if_true]
      cases hout : fileOutcome fs C folder n <;>
        simp [ih, batchWrites, outWrite, hout]
    · simp only [h, if_false, Bool.false_eq_true]
      simpa [batchWrites, h] using ih

theorem batchLoop_printed {α : Type} (fs : FileSystem) (C : FilterClass α)
    (folder : String) (names : List String) :
    (batchLoop fs C folder names).printed = batchPrinted fs C folder names := by
  induction names with
  | nil => rfl
  | cons n rest ih =>
    simp only [batchLoop, batchPrinted, List.filter]
    by_cases h : eligible n
    · simp only [h, if_true]
      cases hout : fileOutcome fs C folder n <;>
        simp [ih, batchPrinted, outFail, hout]
    · simp only [h, if_false, Bool.false_eq_true]
      simpa [batchPrinted, h] using ih

/-- A 1×1 three-channel test image. -/
def img0 : Image :=
  { width := 1, height := 1, channels := 3, pix := fun _ _ _ => 0 }

/-- A directory `d` holding one decodable image `a.png`. -/
def fsOk : FileSystem where
  listing d := if d = "d" then some ["a.png"] else none
  decode p := if p = "d/a.png" then some img0 else none
  writable _ := true

/-- A directory `d` holding one corrupted file `a.png` (decode fails). -/
def fsBadFile : FileSystem where
  listing d := if d = "d" then some ["a.png"] else none
  decode _ := none
  writable _ := true

/-- A directory `d` holding `a.png` and `c.png` (decodable) around a
corrupted `b.png`. -/
def fsMix : FileSystem where
  listing d := if d = "d" then some ["a.png", "b.png", "c.png"] else none
  decode p :=
    if p = "d/b.png" then none
    else if p = "d/a.png" ∨ p = "d/c.png" then some img0 else none
  writable _ := true

/-- A directory `d` holding a decodable `a.png` next to an ineligible
`notes.txt`. -/
def fsNotes : FileSystem where
  listing d := if d = "d" then some ["a.png", "notes.txt"] else none
  decode p := if p = "d/a.png" then some img0 else none
  writable _ := true

theorem str_data_inj {a b : String} (h : a.data = b.data) : a = b := by
  cases a
  cases b
  exact congrArg String.mk h

theorem strAppend_left_cancel {s a b : String} (h : s ++ a = s ++ b) : a = b := by
  apply str_data_inj
  have hd : s.data ++ a.data = s.data ++ b.data := by
    simpa [String.data_append] using congrArg String.data h
  exact List.append_cancel_left hd

theorem pathJoin_processed_inj {folder a b : String}
    (h : pathJoin folder ("processed_" ++ a) = pathJoin folder ("processed_" ++ b)) :
    a = b := by
  unfold pathJoin at h
  have h1 : "processed_" ++ a = "processed_" ++ b := by
    have := congrArg String.data h
    simp only [String.data_append, List.append_assoc] at this
    exact str_data_inj (List.append_cancel_left (List.append_cancel_left this))
  exact strAppend_left_cancel h1

theorem read_invoked {α : Type} (fs : FileSystem) (folder : String)
    (C : FilterClass α) :
    (read_image_from_directory fs folder C).2.invoked = true := by
  unfold read_image_from_directory
  cases h : fs.listing folder with
  | none => rfl
  | some names => exact batchLoop_invoked fs C folder names

theorem read_some {α : Type} (fs : FileSystem) (folder : String)
    (C : FilterClass α) (names : List String)
    (h : fs.listing folder = some names) :
    read_image_from_directory fs folder C =
      (Except.ok (), batchLoop fs C folder names) := by
  unfold read_image_from_directory
  rw [h]

theorem fileOutcome_ok_path {α : Type} (fs : FileSystem) (C : FilterClass α)
    (folder name : String) (w : String × Image)
    (h : fileOutcome fs C folder name = Except.ok w) :
    w.1 = pathJoin folder ("processed_" ++ name) := by
  unfold fileOutcome at h
  split at h
  · cases h
  · split at h
    · cases h
    · split at h
      · cases h
      · rename_i heq
        unfold cv2imwrite at heq
        split at heq
        · cases heq
          cases h
          rfl
        · cases heq

theorem gausianBlur_init_kernel {fs : FileSystem} {path : String} {k : Int}
    {p : GausianBlur} (hi : GausianBlur.init fs path k = Except.ok p) :
    p.kernel = k := by
  unfold GausianBlur.init at hi
  split at hi
  · cases hi
  · cases hi
    rfl

theorem outWrite_eq_some {α : Type} {r : Except α (String × Image)}
    {w : String × Image} (h : outWrite r = some w) : r = Except.ok w := by
  cases r with
  | ok v => cases h; rfl
  | error e => cases h

theorem gaussian_fileOutcome_invalid {k : Int} (hk : ¬(0 < k ∧ k % 2 = 1))
    (fs : FileSystem) (folder n : String) :
    ∃ m, fileOutcome fs (GausianBlurClass k) folder n = Except.error m := by
  cases hi : (GausianBlurClass k).init fs (pathJoin folder n) with
  | error e =>
    exact ⟨failMsg n e.msg, by simp only [fileOutcome, hi]⟩
  | ok p =>
    have hkp : p.kernel = k := gausianBlur_init_kernel hi
    have hp : (GausianBlurClass k).process p =
        Except.error (PyErr.cvError "ksize.width and ksize.height must be positive and odd") := by
      show GausianBlur.process p = _
      unfold GausianBlur.process cv2GaussianBlur
      rw [hkp, if_neg hk]
    exact ⟨failMsg n (PyErr.cvError "ksize.width and ksize.height must be positive and odd").msg,
      by simp only [fileOutcome, hi, hp]⟩

theorem gaussian_invalid_no_writes {k : Int} (hk : ¬(0 < k ∧ k % 2 = 1))
    (fs : FileSystem) (folder : String) :
    (read_image_from_directory fs folder (GausianBlurClass k)).2.writes = [] := by
  unfold read_image_from_directory
  cases hls : fs.listing folder with
  | none => rfl
  | some names =>
    show (batchLoop fs (GausianBlurClass k) folder names).writes = []
    rw [batchLoop_writes]
    unfold batchWrites
    rw [List.filterMap_eq_nil_iff]
    intro n _
    obtain ⟨m, hm⟩ := gaussian_fileOutcome_invalid hk fs folder n
    simp [outWrite, hm]

theorem length_filterMap_of_isSome {β γ : Type} (f : β → Option γ) (l : List β)
    (h : ∀ a ∈ l, (f a).isSome) : (l.filterMap f).length = l.length := by
  induction l with
  | nil => rfl
  | cons a t ih =>
    have ha := h a (List.mem_cons_self a t)
    cases hf : f a with
    | none => rw [hf] at ha; cases ha
    | some c =>
      rw [List.filterMap_cons, hf]
      simp [ih fun b hb => h b (List.mem_cons_of_mem a hb)]

/-- C1: An exception raised while decoding, processing or encoding one
eligible file is caught inside the batch loop, recorded as a printed
failure entry naming that file and the reason, and iteration continues
over the remaining files; the batch call itself returns normally, so no
per-file exception escapes it. -/
theorem batch_isolates_per_file_failures {α : Type} (fs : FileSystem)
    (C : FilterClass α) (folder : String) (names pre post : List String)
    (name msg : String) (hls : fs.listing folder = some names)
    (hsplit : names = pre ++ name :: post) (helig : eligible name = true)
    (hfail : fileOutcome fs C folder name = Except.error msg) :
    (read_image_from_directory fs folder C).1 = Except.ok () ∧
    (read_image_from_directory fs folder C).2.printed =
      batchPrinted fs C folder pre ++ msg :: batchPrinted fs C folder post ∧
    (read_image_from_directory fs folder C).2.writes =
      batchWrites fs C folder pre ++ batchWrites fs C folder post := by
  rw [read_some fs folder C names hls]
  subst hsplit
  refine ⟨rfl, ?_, ?_⟩
  · show (batchLoop fs C folder (pre ++ name :: post)).printed = _
    rw [batchLoop_printed]
    unfold batchPrinted
    rw [List.filter_append, List.filterMap_append]
    simp [List.filter_cons, helig, List.filterMap_cons, outFail, hfail]
  · show (batchLoop fs C folder (pre ++ name :: post)).writes = _
    rw [batchLoop_writes]
    unfold batchWrites
    rw [List.filter_append, List.filterMap_append]
    simp [List.filter_cons, helig, List.filterMap_cons, outWrite, hfail]

/-- Witness for C1: a directory with a corrupted `b.png` between two good
images; the failure is recorded and `a.png`, `c.png` are still
processed. -/
theorem batch_isolates_per_file_failures_witness :
    (read_image_from_directory fsMix "d" (GausianBlurClass 3)).1 = Except.ok () ∧
    (read_image_from_directory fsMix "d" (GausianBlurClass 3)).2.printed =
      batchPrinted fsMix (GausianBlurClass 3) "d" ["a.png"] ++
        "Failed to process b.png: Error: Image d/b.png not found!" ::
          batchPrinted fsMix (GausianBlurClass 3) "d" ["c.png"] ∧
    (read_image_from_directory fsMix "d" (GausianBlurClass 3)).2.writes =
      batchWrites fsMix (GausianBlurClass 3) "d" ["a.png"] ++
        batchWrites fsMix (GausianBlurClass 3) "d" ["c.png"] :=
  batch_isolates_per_file_failures fsMix (GausianBlurClass 3) "d"
    ["a.png", "b.png", "c.png"] ["a.png"] ["c.png"] "b.png"
    "Failed to process b.png: Error: Image d/b.png not found!" rfl rfl (by decide) rfl

/-- C2: for a valid kernel size (positive odd integer),
`GausianBlur.process` succeeds and the resulting image has the same
width, height and channel count as the input image. -/
theorem gaussian_blur_preserves_dimensions (g : GausianBlur)
    (hpos : 0 < g.kernel) (hodd : g.kernel % 2 = 1) :
    GausianBlur.process g =
      Except.ok { image := gaussianBlurImage g.image g.kernel.toNat, kernel := g.kernel } ∧
    (gaussianBlurImage g.image g.kernel.toNat).width = g.image.width ∧
    (gaussianBlurImage g.image g.kernel.toNat).height = g.image.height ∧
    (gaussianBlurImage g.image g.kernel.toNat).channels = g.image.channels := by
  refine ⟨?_, rfl, rfl, rfl⟩
  unfold GausianBlur.process cv2GaussianBlur
  rw [if_pos ⟨hpos, hodd⟩]

/-- Witness for C2 at a concrete image and kernel size 3. -/
theorem gaussian_blur_preserves_dimensions_witness :
    GausianBlur.process { image := img0, kernel := 3 } =
      Except.ok { image := gaussianBlurImage img0 3, kernel := 3 } ∧
    (gaussianBlurImage img0 3).width = img0.width ∧
    (gaussianBlurImage img0 3).height = img0.height ∧
    (gaussianBlurImage img0 3).channels = img0.channels :=
  gaussian_blur_preserves_dimensions { image := img0, kernel := 3 } (by decide) (by decide)

/-- C4: a directory entry is attempted exactly when its name, compared
case-insensitively, ends with one of the extensions png, jpg, jpeg, bmp
(one decode per such entry, in discovery order), and only such entries
can contribute failure entries or outputs; every other entry is skipped
without being counted as a failure. -/
theorem eligibility_filter_characterization {α : Type} (fs : FileSystem)
    (C : FilterClass α) (folder : String) (names : List String)
    (hls : fs.listing folder = some names) :
    (∀ n, eligible n = specEligible n) ∧
    (read_image_from_directory fs folder C).2.reads =
      (names.filter specEligible).map (pathJoin folder) ∧
    (read_image_from_directory fs folder C).2.printed =
      (names.filter specEligible).filterMap
        (fun n => outFail (fileOutcome fs C folder n)) ∧
    (read_image_from_directory fs folder C).2.writes =
      (names.filter specEligible).filterMap
        (fun n => outWrite (fileOutcome fs C folder n)) := by
  have he : eligible = specEligible := funext fun n => rfl
  rw [read_some fs folder C names hls]
  refine ⟨fun n => rfl, ?_, ?_, ?_⟩
  · show (batchLoop fs C folder names).reads = _
    rw [batchLoop_reads]
    unfold batchReads
    rw [he]
  · show (batchLoop fs C folder names).printed = _
    rw [batchLoop_printed]
    unfold batchPrinted
    rw [he]
  · show (batchLoop fs C folder names).writes = _
    rw [batchLoop_writes]
    unfold batchWrites
    rw [he]

/-- Witness for C4: a directory holding an eligible `a.png` and an
ineligible `notes.txt`. -/
theorem eligibility_filter_characterization_witness :
    (∀ n, eligible n = specEligible n) ∧
    (read_image_from_directory fsNotes "d" (GausianBlurClass 3)).2.reads =
      ((["a.png", "notes.txt"].filter specEligible).map (pathJoin "d")) ∧
    (read_image_from_directory fsNotes "d" (GausianBlurClass 3)).2.printed =
      (["a.png", "notes.txt"].filter specEligible).filterMap
        (fun n => outFail (fileOutcome fsNotes (GausianBlurClass 3) "d" n)) ∧
    (read_image_from_directory fsNotes "d" (GausianBlurClass 3)).2.writes =
      (["a.png", "notes.txt"].filter specEligible).filterMap
        (fun n => outWrite (fileOutcome fsNotes (GausianBlurClass 3) "d" n)) :=
  eligibility_filter_characterization fsNotes (GausianBlurClass 3) "d"
    ["a.png", "notes.txt"] rfl

/-- C5 counterexample: two batch runs over one-file directories, one
succeeding and one failing, both return the same value `Except.ok ()`
(Python `None`): the value returned to the caller carries no
succeeded or failed sequence, so the batch runner does not return a
BatchResult aggregate. -/
theorem batch_returns_none_not_result :
    (read_image_from_directory fsOk "d" (GausianBlurClass 3)).1 =
      (read_image_from_directory fsBadFile "d" (GausianBlurClass 3)).1 ∧
    (read_image_from_directory fsOk "d" (GausianBlurClass 3)).2.printed = [] ∧
    (read_image_from_directory fsBadFile "d" (GausianBlurClass 3)).2.printed =
      [failMsg "a.png" "Error: Image d/a.png not found!"] ∧
    (read_image_from_directory fsOk "d" (GausianBlurClass 3)).2.writes.length = 1 ∧
    (read_image_from_directory fsBadFile "d" (GausianBlurClass 3)).2.writes.length = 0 :=
  ⟨rfl, rfl, rfl, rfl, rfl⟩

/-- C5 amended: the batch runner returns Python's `None`, not an
aggregate; per-file failures surface only as printed messages naming the
file and reason, and successes only as written output files, both in
discovery order. -/
theorem batch_reporting_amended {α : Type} (fs : FileSystem)
    (C : FilterClass α) (folder : String) (names : List String)
    (hls : fs.listing folder = some names) :
    (read_image_from_directory fs folder C).1 = Except.ok () ∧
    (read_image_from_directory fs folder C).2.printed = batchPrinted fs C folder names ∧
    (read_image_from_directory fs folder C).2.writes = batchWrites fs C folder names := by
  rw [read_some fs folder C names hls]
  exact ⟨rfl, batchLoop_printed fs C folder names, batchLoop_writes fs C folder names⟩

/-- Witness for the amended C5 at the mixed directory. -/
theorem batch_reporting_amended_witness :
    (read_image_from_directory fsMix "d" (GausianBlurClass 3)).1 = Except.ok () ∧
    (read_image_from_directory fsMix "d" (GausianBlurClass 3)).2.printed =
      batchPrinted fsMix (GausianBlurClass 3) "d" ["a.png", "b.png", "c.png"] ∧
    (read_image_from_directory fsMix "d" (GausianBlurClass 3)).2.writes =
      batchWrites fsMix (GausianBlurClass 3) "d" ["a.png", "b.png", "c.png"] :=
  batch_reporting_amended fsMix (GausianBlurClass 3) "d"
    ["a.png", "b.png", "c.png"] rfl

/-- C6: if the input directory is missing or unreadable, the batch call
fails immediately with the directory error; nothing is read, written or
printed, so zero files are touched. -/
theorem missing_directory_aborts_batch {α : Type} (fs : FileSystem)
    (folder : String) (C : FilterClass α) (h : fs.listing folder = none) :
    read_image_from_directory fs folder C =
      (Except.error (PyErr.osError ("No such directory: " ++ folder)),
        { invoked := true, reads := [], writes := [], printed := [] }) := by
  unfold read_image_from_directory
  rw [h]

/-- Witness for C6: scanning a directory the file system does not have. -/
theorem missing_directory_aborts_batch_witness :
    read_image_from_directory fsOk "nope" (GausianBlurClass 3) =
      (Except.error (PyErr.osError ("No such directory: " ++ "nope")),
        { invoked := true, reads := [], writes := [], printed := [] }) :=
  missing_directory_aborts_batch fsOk "nope" (GausianBlurClass 3) rfl

/-- C3 counterexample: the kernel-size input "0" parses to the integer
0, which is not positive, yet no validation rejects it: the batch runner
is invoked and the file in the directory is read. -/
theorem kernel_validation_claim_false :
    pyInt "0" = Except.ok 0 ∧
    (apply_gaussian_blur fsOk "d" "0").2.invoked = true ∧
    (apply_gaussian_blur fsOk "d" "0").2.reads = [pathJoin "d" "a.png"] :=
  ⟨rfl, rfl, rfl⟩

/-- C3 amended: a non-integer kernel input raises inside `int()` before
the batch runner is invoked, with nothing read or written; an integer
input k ≤ 0, however, is not rejected: the batch runner is invoked and
files are read, though every file then fails at the blur step, so
nothing is written and the directory contents are unchanged. -/
theorem kernel_validation_amended :
    (∀ (fs : FileSystem) (folder s : String) (e : PyErr),
      pyInt s = Except.error e →
      apply_gaussian_blur fs folder s = (Except.error e, idleState)) ∧
    (∀ (fs : FileSystem) (folder s : String) (k : Int),
      pyInt s = Except.ok k → k ≤ 0 →
      (apply_gaussian_blur fs folder s).2.invoked = true ∧
      (apply_gaussian_blur fs folder s).2.writes = []) := by
  constructor
  · intro fs folder s e hs
    unfold apply_gaussian_blur
    rw [hs]
  · intro fs folder s k hs hk
    have hinv : ¬(0 < k ∧ k % 2 = 1) := by
      rintro ⟨h1, _⟩
      omega
    have happ : apply_gaussian_blur fs folder s =
        read_image_from_directory fs folder (GausianBlurClass k) := by
      unfold apply_gaussian_blur
      rw [hs]
    rw [happ]
    exact ⟨read_invoked fs folder (GausianBlurClass k),
      gaussian_invalid_no_writes hinv fs folder⟩

/-- Witness for the amended C3: the non-integer input "x" and the
non-positive integer input "0" on a concrete directory. -/
theorem kernel_validation_amended_witness :
    apply_gaussian_blur fsOk "d" "x" =
      (Except.error (PyErr.valueError "invalid literal for int() with base 10: x"),
        idleState) ∧
    (apply_gaussian_blur fsOk "d" "0").2.invoked = true ∧
    (apply_gaussian_blur fsOk "d" "0").2.writes = [] := by
  obtain ⟨h2, h3⟩ := kernel_validation_amended.2 fsOk "d" "0" 0 rfl (by decide)
  exact ⟨kernel_validation_amended.1 fsOk "d" "x"
    (PyErr.valueError "invalid literal for int() with base 10: x") rfl, h2, h3⟩

/-- C7 counterexample: the even kernel size "4" is neither rejected by
validation (it parses and the batch runner is invoked) nor rounded up to
the next odd value (with kernel 5 the same image processes successfully,
yet nothing is written with 4); instead the blur call raises and the
file is recorded as a per-file failure. -/
theorem even_kernel_policy_claim_false :
    pyInt "4" = Except.ok 4 ∧
    (apply_gaussian_blur fsOk "d" "4").2.invoked = true ∧
    (apply_gaussian_blur fsOk "d" "4").2.writes = [] ∧
    (apply_gaussian_blur fsOk "d" "4").2.printed =
      [failMsg "a.png" "ksize.width and ksize.height must be positive and odd"] ∧
    GausianBlur.process { image := img0, kernel := 5 } =
      Except.ok { image := gaussianBlurImage img0 5, kernel := 5 } :=
  ⟨rfl, rfl, rfl, rfl, rfl⟩

/-- C7 amended: an even kernel value passes parameter parsing unchanged
and the batch runner is invoked with it; the blur call then raises for
every eligible file, so each eligible file is recorded as a failure
entry and no output file is written. -/
theorem even_kernel_amended (fs : FileSystem) (folder s : String) (k : Int)
    (hs : pyInt s = Except.ok k) (heven : k % 2 = 0) :
    (apply_gaussian_blur fs folder s).2.invoked = true ∧
    (apply_gaussian_blur fs folder s).2.writes = [] ∧
    ∀ names, fs.listing folder = some names →
      (apply_gaussian_blur fs folder s).2.printed.length =
        (names.filter eligible).length := by
  have hinv : ¬(0 < k ∧ k % 2 = 1) := by
    rintro ⟨_, h2⟩
    omega
  have happ : apply_gaussian_blur fs folder s =
      read_image_from_directory fs folder (GausianBlurClass k) := by
    unfold apply_gaussian_blur
    rw [hs]
  rw [happ]
  refine ⟨read_invoked fs folder (GausianBlurClass k),
    gaussian_invalid_no_writes hinv fs folder, ?_⟩
  intro names hls
  rw [read_some fs folder (GausianBlurClass k) names hls]
  show (batchLoop fs (GausianBlurClass k) folder names).printed.length = _
  rw [batchLoop_printed]
  unfold batchPrinted
  apply length_filterMap_of_isSome
  intro n _
  obtain ⟨m, hm⟩ := gaussian_fileOutcome_invalid hinv fs folder n
  simp [outFail, hm]

/-- Witness for the amended C7: kernel "4" over a directory with one
eligible image. -/
theorem even_kernel_amended_witness :
    (apply_gaussian_blur fsOk "d" "4").2.invoked = true ∧
    (apply_gaussian_blur fsOk "d" "4").2.writes = [] ∧
    (apply_gaussian_blur fsOk "d" "4").2.printed.length =
      (["a.png"].filter eligible).length := by
  obtain ⟨h1, h2, h3⟩ := even_kernel_amended fsOk "d" "4" 4 rfl (by decide)
  exact ⟨h1, h2, h3 ["a.png"] rfl⟩

/-- C8: a successfully processed eligible file named F yields its output
at `os.path.join(folder, "processed_" + F)`, and — the directory listing
having no duplicate names — exactly one write of the whole batch targets
that path. -/
theorem output_path_processed_unique {α : Type} (fs : FileSystem)
    (C : FilterClass α) (folder : String) (names : List String)
    (name : String) (w : String × Image)
    (hls : fs.listing folder = some names) (hnd : names.Nodup)
    (hmem : name ∈ names) (helig : eligible name = true)
    (hok : fileOutcome fs C folder name = Except.ok w) :
    w.1 = pathJoin folder ("processed_" ++ name) ∧
    ((read_image_from_directory fs folder C).2.writes.map Prod.fst).count
      (pathJoin folder ("processed_" ++ name)) = 1 := by
  refine ⟨fileOutcome_ok_path fs C folder name w hok, ?_⟩
  rw [read_some fs folder C names hls]
  show ((batchLoop fs C folder names).writes.map Prod.fst).count _ = 1
  rw [batchLoop_writes]
  unfold batchWrites
  rw [List.map_filterMap]
  have hpath : ∀ n v,
      (outWrite (fileOutcome fs C folder n)).map Prod.fst = some v →
      v = pathJoin folder ("processed_" ++ n) := by
    intro n v hv
    cases ho : outWrite (fileOutcome fs C folder n) with
    | none => rw [ho] at hv; cases hv
    | some u =>
      rw [ho] at hv
      cases hv
      exact fileOutcome_ok_path fs C folder n u (outWrite_eq_some ho)
  have hnodup : ((names.filter eligible).filterMap
      (fun n => (outWrite (fileOutcome fs C folder n)).map Prod.fst)).Nodup := by
    refine List.Nodup.filterMap ?_ (hnd.filter eligible)
    intro a a' b hb hb'
    have ha := hpath a b (Option.mem_def.mp hb)
    have ha' := hpath a' b (Option.mem_def.mp hb')
    exact pathJoin_processed_inj (ha.symm.trans ha')
  have hmemw : pathJoin folder ("processed_" ++ name) ∈
      (names.filter eligible).filterMap
        (fun n => (outWrite (fileOutcome fs C folder n)).map Prod.fst) := by
    refine List.mem_filterMap.mpr ⟨name, List.mem_filter.mpr ⟨hmem, helig⟩, ?_⟩
    rw [hok]
    show some w.1 = _
    rw [fileOutcome_ok_path fs C folder name w hok]
  exact List.count_eq_one_of_mem hnodup hmemw

/-- Witness for C8: the single eligible image of `fsOk` is written once
at `d/processed_a.png`. -/
theorem output_path_processed_unique_witness :
    ("d/processed_a.png", gaussianBlurImage img0 3).1 =
      pathJoin "d" ("processed_" ++ "a.png") ∧
    ((read_image_from_directory fsOk "d" (GausianBlurClass 3)).2.writes.map Prod.fst).count
      (pathJoin "d" ("processed_" ++ "a.png")) = 1 :=
  output_path_processed_unique fsOk (GausianBlurClass 3) "d" ["a.png"] "a.png"
    ("d/processed_a.png", gaussianBlurImage img0 3) rfl (by decide) (by decide)
    (by decide) rfl

/-- C9: a constructed `ImageProcessor` always holds the successfully
decoded, non-null image buffer in its `image` attribute; when decoding
fails the constructor raises `ValueError` instead, so an object whose
image failed to decode is never constructed. -/
theorem image_processor_init_invariant (fs : FileSystem) (filename : String) :
    (∀ p, ImageProcessor.init fs filename = Except.ok p →
      fs.decode filename = some p.image) ∧
    (fs.decode filename = none →
      ImageProcessor.init fs filename =
        Except.error (PyErr.valueError ("Error: Image " ++ filename ++ " not found!"))) := by
  constructor
  · intro p hp
    unfold ImageProcessor.init at hp
    cases hd : fs.decode filename with
    | none => rw [hd] at hp; cases hp
    | some img =>
      rw [hd] at hp
      cases hp
      rfl
  · intro hd
    unfold ImageProcessor.init
    rw [hd]

/-- Witness for C9: a decodable file yields an object holding that
image; an undecodable one makes the constructor raise. -/
theorem image_processor_init_invariant_witness :
    fsOk.decode "d/a.png" = some img0 ∧
    ImageProcessor.init fsBadFile "d/a.png" =
      Except.error (PyErr.valueError ("Error: Image " ++ "d/a.png" ++ " not found!")) :=
  ⟨(image_processor_init_invariant fsOk "d/a.png").1 { image := img0 } rfl,
   (image_processor_init_invariant fsBadFile "d/a.png").2 rfl⟩

/-- C10: calling `process` on any constructed base `ImageProcessor`
raises `ValueError('Subclasses should implement this!')`; construction
itself succeeds whenever the image decodes, so the unimplemented-filter
failure happens at call time, not at construction time. -/
theorem base_process_always_raises :
    (∀ p : ImageProcessor, ImageProcessor.process p =
      Except.error (PyErr.valueError "Subclasses should implement this!")) ∧
    (∀ (fs : FileSystem) (filename : String) (img : Image),
      fs.decode filename = some img →
      ImageProcessor.init fs filename = Except.ok { image := img }) := by
  constructor
  · intro p
    rfl
  · intro fs filename img hd
    unfold ImageProcessor.init
    rw [hd]

/-- Witness for C10: the base object built from `d/a.png` raises on
`process` though its construction succeeded. -/
theorem base_process_always_raises_witness :
    ImageProcessor.process { image := img0 } =
      Except.error (PyErr.valueError "Subclasses should implement this!") ∧
    ImageProcessor.init fsOk "d/a.png" = Except.ok { image := img0 } :=
  ⟨base_process_always_raises.1 { image := img0 },
   base_process_always_raises.2 fsOk "d/a.png" img0 rfl⟩
